import Mathlib

/-!
# pm-esd/tracing: global tracer registry, no-op backend and span factory

A shallow embedding of `internal/globaltracer.go` and `trace.go`, followed by
the theorems that settle the claims C1 .. C10 of the specification.

Conventions of the embedding:

* Go interface values that the registry only stores and calls `Stop` on are
  handles with decidable equality; a call of a method with an effect outside
  the program (`Stop`, `Finish`, a log line) is recorded in an explicit log.
* `nil` is `none`; a Go `error` result is an `Option` of an error value.
* The mutex of the registry is not modelled: the registry is a sequential
  state machine, every operation being one atomic step.
-/

namespace Internal

/-! ## `internal/globaltracer.go` -/

/-- Modelled from the spec: the interface `tracing.Tracer` (start spans,
extract and inject contexts, report service identity, stop) is declared in a
file of the repository that is not in the sources at hand. The registry only
stores tracer values and calls `Stop` on them, so a tracer value is a handle:
the `&NoopTracer{}` that `globalTracer` is initialised with, or some other
tracer value `impl id`. -/
inductive Tracer where
  | NoopTracer
  | impl (id : Nat)
  deriving DecidableEq, Repr

/-- The package-level variables `globalTracer` and `Testing`, together with the
log of the `Stop()` calls made so far (the tracer each call was made on, oldest
first). -/
structure Registry where
  globalTracer : Tracer
  Testing : Bool
  stops : List Tracer
  deriving DecidableEq, Repr

/-- The state after package initialisation: `globalTracer = &NoopTracer{}`,
`Testing = false`, and no `Stop` call made. -/
def Registry.init : Registry :=
  { globalTracer := Tracer.NoopTracer, Testing := false, stops := [] }

/-- The call `t.Stop()` of the interface method, recorded in the log. -/
def Tracer.Stop (t : Tracer) (s : Registry) : Registry :=
  { s with stops := s.stops ++ [t] }

/-- `SetGlobalTracer(t)`: unless `Testing`, stop the current tracer; then store `t`. -/
def SetGlobalTracer (t : Tracer) (s : Registry) : Registry :=
  let s1 := if !s.Testing then s.globalTracer.Stop s else s
  { s1 with globalTracer := t }

/-- `GetGlobalTracer()`: the currently active tracer. -/
def GetGlobalTracer (s : Registry) : Tracer :=
  s.globalTracer

/-- An assignment to the exported variable `Testing`. -/
def setTesting (b : Bool) (s : Registry) : Registry :=
  { s with Testing := b }

/-- A sequence of `SetGlobalTracer` calls, each given with the value that
`Testing` has when the call is made. -/
def runSets (calls : List (Bool × Tracer)) (s : Registry) : Registry :=
  calls.foldl (fun st c => SetGlobalTracer c.2 (setTesting c.1 st)) s

/-- A sequence of `SetGlobalTracer` calls with `Testing` left as it is. -/
def setAll (ts : List Tracer) (s : Registry) : Registry :=
  ts.foldl (fun st t => SetGlobalTracer t st) s

/-- Number of `Stop()` calls made on tracer `a` so far. -/
def stopCount (a : Tracer) (s : Registry) : Nat :=
  s.stops.count a

/-! ### The no-op backend -/

/-- `type NoopTracer struct{}`. -/
structure NoopTracer where
  deriving DecidableEq, Repr

/-- `type NoopSpan struct{}`. -/
structure NoopSpan where
  deriving DecidableEq, Repr

/-- `type NoopSpanContext struct{}`. -/
structure NoopSpanContext where
  deriving DecidableEq, Repr

/-- `NoopTracer.StartSpan`: the operation name and the options are ignored. -/
def NoopTracer.StartSpan {ω : Type} (_ : NoopTracer) (_operationName : String)
    (_opts : List ω) : NoopSpan :=
  {}

/-- `NoopTracer.SetServiceInfo`: no effect. -/
def NoopTracer.SetServiceInfo (t : NoopTracer) (_name _app _appType : String) : NoopTracer :=
  t

/-- `NoopTracer.Extract`: the pair `(NoopSpanContext{}, nil)` for a carrier of
any type (`interface{}`). -/
def NoopTracer.Extract {κ : Type} (_ : NoopTracer) (_carrier : κ) :
    NoopSpanContext × Option String :=
  ({}, none)

/-- `NoopTracer.Inject`: the error result `nil` for a context and a carrier of
any type. -/
def NoopTracer.Inject {γ κ : Type} (_ : NoopTracer) (_context : γ) (_carrier : κ) :
    Option String :=
  none

/-- `NoopTracer.Stop`: no effect. -/
def NoopTracer.Stop (t : NoopTracer) : NoopTracer :=
  t

/-- `NoopSpan.SetTag`: no effect (the value is an `interface{}`). -/
def NoopSpan.SetTag {α : Type} (sp : NoopSpan) (_key : String) (_value : α) : NoopSpan :=
  sp

/-- `NoopSpan.SetOperationName`: no effect. -/
def NoopSpan.SetOperationName (sp : NoopSpan) (_operationName : String) : NoopSpan :=
  sp

/-- `NoopSpan.BaggageItem`: the empty string. -/
def NoopSpan.BaggageItem (_ : NoopSpan) (_key : String) : String :=
  ""

/-- `NoopSpan.SetBaggageItem`: no effect. -/
def NoopSpan.SetBaggageItem (sp : NoopSpan) (_key _val : String) : NoopSpan :=
  sp

/-- `NoopSpan.Finish`: no effect. -/
def NoopSpan.Finish {φ : Type} (sp : NoopSpan) (_opts : List φ) : NoopSpan :=
  sp

/-- `NoopSpan.Tracer`: a `NoopTracer{}`. -/
def NoopSpan.Tracer (_ : NoopSpan) : NoopTracer :=
  {}

/-- `NoopSpan.Context`: a `NoopSpanContext{}`. -/
def NoopSpan.Context (_ : NoopSpan) : NoopSpanContext :=
  {}

/-- `NoopSpanContext.SpanID`: the `uint64` zero. -/
def NoopSpanContext.SpanID (_ : NoopSpanContext) : Nat :=
  0

/-- `NoopSpanContext.TraceID`: the `uint64` zero. -/
def NoopSpanContext.TraceID (_ : NoopSpanContext) : Nat :=
  0

/-- `NoopSpanContext.ForeachBaggageItem`: the result is the list of the
`(k, v)` pairs the handler is called with, in order. The body is empty, so
the list is empty whatever the handler. -/
def NoopSpanContext.ForeachBaggageItem (_ : NoopSpanContext)
    (_handler : String → String → Bool) : List (String × String) :=
  []

/-- A call of one of the mutating methods of a `NoopSpan`. -/
inductive NoopSpanCall where
  | SetTag (key : String) (value : String)
  | SetOperationName (operationName : String)
  | SetBaggageItem (key val : String)
  | Finish
  deriving DecidableEq, Repr

/-- Perform one mutating call on a `NoopSpan`. -/
def NoopSpanCall.run (sp : NoopSpan) : NoopSpanCall → NoopSpan
  | NoopSpanCall.SetTag k v => sp.SetTag k v
  | NoopSpanCall.SetOperationName n => sp.SetOperationName n
  | NoopSpanCall.SetBaggageItem k v => sp.SetBaggageItem k v
  | NoopSpanCall.Finish => sp.Finish ([] : List Unit)

end Internal

namespace Tracing

/-! ## `trace.go`: configuration of the backend -/

/-- A Go `float64`: a finite value `± mantissa * 2 ^ exponent` (the zero with
either sign included), an infinity, or a NaN. The program stores such values
and compares them with zero; it does no arithmetic on them. -/
inductive Float64 where
  | finite (negative : Bool) (mantissa : Nat) (exponent : Int)
  | inf (negative : Bool)
  | nan
  deriving DecidableEq, Repr

/-- The constant `0.0`. -/
def Float64.zero : Float64 :=
  Float64.finite false 0 0

/-- The Go comparison `x > 0` on `float64`: false for both zeros, for every
negative value and for NaN. -/
def Float64.gtZero : Float64 → Bool
  | Float64.finite negative mantissa _ => !negative && decide (0 < mantissa)
  | Float64.inf negative => !negative
  | Float64.nan => false

/-- The Go comparison `x < 0.0` on `float64`: false for both zeros, for every
positive value and for NaN. -/
def Float64.ltZero : Float64 → Bool
  | Float64.finite negative mantissa _ => negative && decide (0 < mantissa)
  | Float64.inf negative => negative
  | Float64.nan => false

/-- The Go comparison `x > 1.0` on `float64`: for a finite non-negative value
`mantissa * 2 ^ exponent` it compares `mantissa * 2 ^ exponent` with `1` after
clearing the negative exponent; false for NaN. -/
def Float64.gtOne : Float64 → Bool
  | Float64.finite negative mantissa exponent =>
      !negative && decide (2 ^ (-exponent).toNat < mantissa * 2 ^ exponent.toNat)
  | Float64.inf negative => !negative
  | Float64.nan => false

/-- `type options struct`. -/
structure options where
  sampleProbability : Float64
  enableInfoLog : Bool
  deriving DecidableEq, Repr

/-- `var defaultOptions`. -/
def defaultOptions : options :=
  { sampleProbability := Float64.zero, enableInfoLog := false }

/-- `type Option func(*options)`, named `TracingOption` here because `Option`
is taken: the update an option performs on the `options` value. -/
abbrev TracingOption := options → options

/-- `WithSampleProbability`. -/
def WithSampleProbability (sampleProbability : Float64) : TracingOption :=
  fun o => { o with sampleProbability := sampleProbability }

/-- `WithEnableInfoLog`. -/
def WithEnableInfoLog (enable : Bool) : TracingOption :=
  fun o => { o with enableInfoLog := enable }

/-- The two ways a caller outside the package can build a `TracingOption`
(the type `options` is not exported). -/
inductive OptionCall where
  | WithSampleProbability (sampleProbability : Float64)
  | WithEnableInfoLog (enable : Bool)
  deriving DecidableEq, Repr

/-- The option value an `OptionCall` evaluates to. -/
def OptionCall.eval : OptionCall → TracingOption
  | OptionCall.WithSampleProbability p => Tracing.WithSampleProbability p
  | OptionCall.WithEnableInfoLog b => Tracing.WithEnableInfoLog b

/-- The loop `opts := defaultOptions; for _, o := range opt { o(&opts) }` of
`InitTracing`. -/
def applyOptions (opt : List TracingOption) : options :=
  opt.foldl (fun opts o => o opts) defaultOptions

/-- The probability an option call sets, if it sets one. -/
def OptionCall.sampleProbability? : OptionCall → Option Float64
  | OptionCall.WithSampleProbability p => some p
  | OptionCall.WithEnableInfoLog _ => none

/-- The argument of the last `WithSampleProbability` call in a list of option
calls, if there is one. -/
def lastSampleProbability (calls : List OptionCall) : Option Float64 :=
  (calls.filterMap OptionCall.sampleProbability?).getLast?

/-- The effective sample probability of a list of option calls: the argument of
the last `WithSampleProbability`, or `0.0` when there is none. -/
def effectiveProbability (calls : List OptionCall) : Float64 :=
  (lastSampleProbability calls).getD Float64.zero

/-- Level of a log entry. -/
inductive Level where
  | Error
  | Info
  deriving DecidableEq, Repr

/-- A line written through `logrus`: its level, the message or format, and the
arguments of the format. -/
structure LogLine where
  level : Level
  msg : String
  args : List String
  deriving DecidableEq, Repr

/-- `type LogrusAdapter struct`. -/
structure LogrusAdapter where
  deriving DecidableEq, Repr

/-- `LogrusAdapter.Error`: `logrus.Error(msg)`. -/
def LogrusAdapter.Error (_ : LogrusAdapter) (msg : String) : LogLine :=
  { level := Level.Error, msg := msg, args := [] }

/-- `LogrusAdapter.Infof`: `logrus.Infof(msg, args...)`. -/
def LogrusAdapter.Infof (_ : LogrusAdapter) (msg : String) (args : List String) : LogLine :=
  { level := Level.Info, msg := msg, args := args }

/-- `LogrusAdapter.Errorf`: `logrus.Errorf(msg, args...)`. -/
def LogrusAdapter.Errorf (_ : LogrusAdapter) (msg : String) (args : List String) : LogLine :=
  { level := Level.Error, msg := msg, args := args }

/-- A transport as `jaeger.NewUDPTransport(hostPort, maxPacketSize)` returns it. -/
structure Transport where
  hostPort : String
  maxPacketSize : Nat
  deriving DecidableEq, Repr

/-- A sampler of the backend library: a probabilistic sampler with its rate, or
a constant sampler with its decision. -/
inductive Sampler where
  | ProbabilisticSampler (samplingRate : Float64)
  | ConstSampler (decision : Bool)
  deriving DecidableEq, Repr

/-- Modelled from the spec: `jaeger.NewProbabilisticSampler(samplingRate)`,
library code outside the sources (the spec gives the probability the range
`[0,1]`): for a rate `< 0.0` or `> 1.0` the result is a nil sampler and an
error, otherwise the probabilistic sampler at that rate and a nil error. -/
def NewProbabilisticSampler (samplingRate : Float64) : Option Sampler × Option String :=
  if samplingRate.ltZero || samplingRate.gtOne then
    (none, some "Sampling Rate must be between 0.0 and 1.0")
  else
    (some (Sampler.ProbabilisticSampler samplingRate), none)

/-- Modelled from the spec: `jaeger.NewConstSampler(sample)`, library code
outside the sources: the constant sampler with that decision. -/
def NewConstSampler (sample : Bool) : Sampler :=
  Sampler.ConstSampler sample

/-- The reporter `jaeger.NewCompositeReporter(jaeger.NewLoggingReporter(logAdapt),
jaeger.NewRemoteReporter(transport, ..., Logger(logAdapt)))`: the logger of the
logging reporter, and the transport and the logger of the remote reporter. -/
structure Reporter where
  loggingReporter : LogrusAdapter
  remoteTransport : Transport
  remoteLogger : LogrusAdapter
  deriving DecidableEq, Repr

/-- The tracer `jaeger.NewTracer(serviceName, sampler, reporter, ...)` builds: its
arguments. The sampler is `none` when the value handed over is nil. -/
structure JaegerTracer where
  serviceName : String
  sampler : Option Sampler
  reporter : Reporter
  deriving DecidableEq, Repr

/-- The non-error results of `InitTracing`; the closer is the one of the tracer. -/
structure InitResult where
  tracer : JaegerTracer
  reporter : Reporter
  closer : JaegerTracer
  deriving DecidableEq, Repr

/-- The process-wide state `InitTracing` touches: whether the metrics of the
backend library are already registered with the default registry of the
metrics library. -/
structure Process where
  metricsRegistered : Bool
  deriving DecidableEq, Repr

/-- A process in which `InitTracing` was not called yet. -/
def Process.fresh : Process :=
  { metricsRegistered := false }

/-- How a call of `InitTracing` ends: it panics, or it returns its results
(`Except.error err` when the error result is non-nil). -/
inductive Outcome where
  | panic
  | returned (res : Except String InitResult)

/-- The tracer a call of `InitTracing` returns, if it returns with a nil error. -/
def Outcome.tracer? : Outcome → Option JaegerTracer
  | Outcome.returned (Except.ok res) => some res.tracer
  | _ => none

/-- Modelled from the spec: `prometheus.New()` followed by
`jaeger.NewMetrics(factory, ...)`, library code outside the sources: the metrics
are registered with the process-wide default registry, and registering them a
second time panics. The result is `none` for the panic, else the new state. -/
def NewMetrics (p : Process) : Option Process :=
  if p.metricsRegistered then none else some { metricsRegistered := true }

/-- `InitTracing`. The library call `jaeger.NewUDPTransport` is a parameter and
the process state is threaded; when the transport fails, its error is returned
and no tracer is built. The error result of `jaeger.NewProbabilisticSampler` is
dropped, as in `sampler, _ := ...`. The field `enableInfoLog` is never read. -/
def InitTracing (NewUDPTransport : String → Nat → Except String Transport) (p : Process)
    (serviceName tracingAgentHostPort : String) (opt : List TracingOption) :
    Process × Outcome :=
  let opts := applyOptions opt
  match NewMetrics p with
  | none => (p, Outcome.panic)
  | some p1 =>
    match NewUDPTransport tracingAgentHostPort 0 with
    | Except.error err => (p1, Outcome.returned (Except.error err))
    | Except.ok transport =>
      let logAdapt : LogrusAdapter := {}
      let reporter : Reporter :=
        { loggingReporter := logAdapt, remoteTransport := transport, remoteLogger := logAdapt }
      if opts.sampleProbability.gtZero then
        let sampler := (NewProbabilisticSampler opts.sampleProbability).1
        let tracer : JaegerTracer :=
          { serviceName := serviceName, sampler := sampler, reporter := reporter }
        (p1, Outcome.returned (Except.ok
          { tracer := tracer, reporter := reporter, closer := tracer }))
      else
        let sampler := NewConstSampler true
        let tracer : JaegerTracer :=
          { serviceName := serviceName, sampler := some sampler, reporter := reporter }
        (p1, Outcome.returned (Except.ok
          { tracer := tracer, reporter := reporter, closer := tracer }))

/-- The results of `InitTracing` in a fresh process when the transport is
established: the tracer that `opts` selects. -/
def initResultFor (serviceName : String) (transport : Transport) (opts : options) :
    InitResult :=
  let reporter : Reporter :=
    { loggingReporter := {}, remoteTransport := transport, remoteLogger := {} }
  let tracer : JaegerTracer :=
    { serviceName := serviceName,
      sampler :=
        if opts.sampleProbability.gtZero then (NewProbabilisticSampler opts.sampleProbability).1
        else some (NewConstSampler true),
      reporter := reporter }
  { tracer := tracer, reporter := reporter, closer := tracer }

/-! ## `trace.go`: the span factory

The tracing library (`opentracing-go` and its `ext` package) is not part of the
repository. What the factory needs of it is modelled below: a recording span
(operation name, references, a last-write-wins tag map, the calls made on it),
the start options with their `Apply` methods, and the tag names. -/

/-- A tag value (`interface{}` in Go): one constructor for each dynamic type
that the factory stores. -/
inductive TagValue where
  | str (s : String)
  | int (n : Int)
  | uint16 (n : Nat)
  | bool (b : Bool)
  | spanKind (s : String)
  deriving DecidableEq, Repr

/-- The integer a numeric tag value stands for. -/
def TagValue.toInt : TagValue → Option Int
  | TagValue.int n => some n
  | TagValue.uint16 n => some (Int.ofNat n)
  | _ => none

/-- A Go `map[string]interface{}` of tags: the value stored under each key. -/
abbrev TagMap := String → Option TagValue

/-- The empty tag map. -/
def TagMap.empty : TagMap :=
  fun _ => none

/-- The assignment `m[k] = v`. -/
def TagMap.set (m : TagMap) (k : String) (v : TagValue) : TagMap :=
  fun key => if key = k then some v else m key

/-- `opentracing.Tag`. -/
structure Tag where
  Key : String
  Value : TagValue
  deriving DecidableEq, Repr

/-- Modelled from the spec: a span context of the tracing library (a trace
identifier, a span identifier and the baggage items); the interface
`opentracing.SpanContext` is library code outside the sources. -/
structure SpanContext where
  TraceID : Nat
  SpanID : Nat
  Baggage : List (String × String)
  deriving DecidableEq, Repr

/-- `opentracing.SpanReferenceType`. -/
inductive SpanReferenceType where
  | ChildOfRef
  | FollowsFromRef
  deriving DecidableEq, Repr

/-- `opentracing.SpanReference`; a `nil` referenced context is `none`. -/
structure SpanReference where
  RefType : SpanReferenceType
  ReferencedContext : Option SpanContext
  deriving DecidableEq, Repr

/-- `opentracing.StartSpanOptions` (the start time, which the factory never
sets, is left out). -/
structure StartSpanOptions where
  References : List SpanReference
  Tags : TagMap

/-- The interface `opentracing.StartSpanOption`, given by its one method
`Apply(*StartSpanOptions)`. -/
abbrev StartSpanOption := StartSpanOptions → StartSpanOptions

/-- Modelled from the spec: `opentracing.ChildOf(sc)`, library code outside the
sources: the child-of reference to `sc`. -/
def ChildOf (sc : Option SpanContext) : SpanReference :=
  { RefType := SpanReferenceType.ChildOfRef, ReferencedContext := sc }

/-- Modelled from the spec: `SpanReference.Apply`, library code outside the
sources: the reference is added to the options when its context is present. -/
def SpanReference.Apply (r : SpanReference) (o : StartSpanOptions) : StartSpanOptions :=
  if r.ReferencedContext.isSome then { o with References := o.References ++ [r] } else o

/-- Modelled from the spec: `Tag.Apply`, library code outside the sources: the
tag is stored in the options. -/
def Tag.Apply (t : Tag) (o : StartSpanOptions) : StartSpanOptions :=
  { o with Tags := o.Tags.set t.Key t.Value }

namespace ext

/-- Modelled from the spec: the tag names of the library package `ext`, which is
outside the sources (section 6 of the spec lists the tag vocabulary). -/
def SpanKind : String := "span.kind"

/-- Modelled from the spec: tag name `component` of the library package `ext`. -/
def Component : String := "component"

/-- Modelled from the spec: tag name `http.method` of the library package `ext`. -/
def HTTPMethod : String := "http.method"

/-- Modelled from the spec: tag name `http.url` of the library package `ext`. -/
def HTTPUrl : String := "http.url"

/-- Modelled from the spec: tag name `http.status_code` of the library package `ext`. -/
def HTTPStatusCode : String := "http.status_code"

/-- Modelled from the spec: tag name `db.type` of the library package `ext`. -/
def DBType : String := "db.type"

/-- Modelled from the spec: tag name `db.instance` of the library package `ext`. -/
def DBInstance : String := "db.instance"

/-- Modelled from the spec: tag name `db.user` of the library package `ext`. -/
def DBUser : String := "db.user"

/-- Modelled from the spec: tag name `db.statement` of the library package `ext`. -/
def DBStatement : String := "db.statement"

/-- Modelled from the spec: tag name `error` of the library package `ext`. -/
def Error : String := "error"

/-- Modelled from the spec: `ext.SpanKindConsumer`, the tag `span.kind = consumer`. -/
def SpanKindConsumer : Tag :=
  { Key := SpanKind, Value := TagValue.spanKind "consumer" }

/-- Modelled from the spec: `ext.SpanKindRPCServer`, the tag `span.kind = server`. -/
def SpanKindRPCServer : Tag :=
  { Key := SpanKind, Value := TagValue.spanKind "server" }

/-- Modelled from the spec: `ext.RPCServerOption(client)`, library code outside
the sources: a server-kind span with the client context as parent if present
(section 4.3 of the spec). -/
def RPCServerOption (client : Option SpanContext) : StartSpanOption :=
  fun o =>
    let o1 := if client.isSome then (ChildOf client).Apply o else o
    SpanKindRPCServer.Apply o1

end ext

/-- `type consumerOption struct`. -/
structure consumerOption where
  ctx : Option SpanContext
  deriving DecidableEq, Repr

/-- `consumerOption.Apply`. -/
def consumerOption.Apply (r : consumerOption) (o : StartSpanOptions) : StartSpanOptions :=
  let o1 := if r.ctx.isSome then (ChildOf r.ctx).Apply o else o
  ext.SpanKindConsumer.Apply o1

/-- A method call made on a span after it was started. -/
inductive SpanCall where
  | SetTag (key : String) (value : TagValue)
  | Finish
  deriving DecidableEq, Repr

/-- Modelled from the spec: a span of the active tracer (section 3: operation
name, tags with unique keys and last-write-wins, a span context), with the
references it was started with and the calls made on it, oldest first. The
interface `opentracing.Span` is library code outside the sources. -/
structure Span where
  OperationName : String
  References : List SpanReference
  Tags : TagMap
  Ctx : SpanContext
  Calls : List SpanCall

/-- `Span.SetTag` on the recording span. -/
def Span.SetTag (sp : Span) (key : String) (value : TagValue) : Span :=
  { sp with Tags := sp.Tags.set key value, Calls := sp.Calls ++ [SpanCall.SetTag key value] }

/-- `Span.Finish` on the recording span. -/
def Span.Finish (sp : Span) : Span :=
  { sp with Calls := sp.Calls ++ [SpanCall.Finish] }

/-- `Span.Context`. -/
def Span.Context (sp : Span) : SpanContext :=
  sp.Ctx

/-- Number of `Finish` calls made on a span. -/
def Span.finishCount (sp : Span) : Nat :=
  sp.Calls.count SpanCall.Finish

namespace ext

/-- Modelled from the spec: the method `Set` of a string tag name of the library:
`span.SetTag(name, value)`. -/
def StringTagName.Set (tag : String) (span : Span) (value : String) : Span :=
  span.SetTag tag (TagValue.str value)

/-- Modelled from the spec: the method `Set` of a `uint16` tag name of the
library: `span.SetTag(name, value)` for a value `0 .. 65535`. -/
def Uint16TagName.Set (tag : String) (span : Span) (value : Nat) : Span :=
  span.SetTag tag (TagValue.uint16 value)

/-- Modelled from the spec: the method `Set` of a boolean tag name of the
library: `span.SetTag(name, value)`. -/
def BoolTagName.Set (tag : String) (span : Span) (value : Bool) : Span :=
  span.SetTag tag (TagValue.bool value)

end ext

/-- The Go conversion `uint16(code)` of an `int`: the low 16 bits. -/
def uint16 (code : Int) : Nat :=
  (code % 65536).toNat

/-- A Go `error` value as `Extract` returns it: the library's sentinel
`opentracing.ErrSpanContextNotFound`, or any other error. -/
inductive TraceError where
  | ErrSpanContextNotFound
  | other (msg : String)
  deriving DecidableEq, Repr

/-- `opentracing.BuiltinFormat`. -/
inductive BuiltinFormat where
  | Binary
  | TextMap
  | HTTPHeaders
  deriving DecidableEq, Repr

/-- The two carriers the factory builds: `opentracing.HTTPHeadersCarrier(r.Header)`
and `opentracing.TextMapCarrier(hdr)`. -/
inductive Carrier where
  | HTTPHeadersCarrier (header : List (String × List String))
  | TextMapCarrier (hdr : List (String × String))
  deriving DecidableEq, Repr

/-- The active tracer `opentracing.GlobalTracer()`, an arbitrary implementation
of the library interface: its `Extract` may return any pair of a context (or
`nil`) and an error (or `nil`); `NewContext` is the identity it gives to a span
started with the given references. -/
structure Tracer where
  Extract : BuiltinFormat → Carrier → Option SpanContext × Option TraceError
  NewContext : List SpanReference → SpanContext

/-- Modelled from the spec: `opentracing.StartSpan(operationName, opts...)`, the
`StartSpan` of the active tracer: the options are applied in order to empty
start options, and the span starts with the resulting references and tags. -/
def StartSpan (tr : Tracer) (operationName : String) (opts : List StartSpanOption) : Span :=
  let sso := opts.foldl (fun o opt => opt o) { References := [], Tags := TagMap.empty }
  { OperationName := operationName, References := sso.References, Tags := sso.Tags,
    Ctx := tr.NewContext sso.References, Calls := [] }

/-- A `context.Context`: the span stored under the library's active-span key,
and the other values it carries. -/
structure Context where
  span : Option Span
  values : List (String × String)

/-- Modelled from the spec: `opentracing.ContextWithSpan(ctx, span)`. -/
def ContextWithSpan (ctx : Context) (span : Span) : Context :=
  { ctx with span := some span }

/-- Modelled from the spec: `opentracing.SpanFromContext(ctx)`. -/
def SpanFromContext (ctx : Context) : Option Span :=
  ctx.span

/-- Modelled from the spec: `opentracing.StartSpanFromContext(ctx, operationName)`,
library code outside the sources: a child of the span found in the context,
a root span if there is none (section 4.3 of the spec). -/
def StartSpanFromContext (tr : Tracer) (ctx : Context) (operationName : String) :
    Span × Context :=
  let opts : List StartSpanOption :=
    match SpanFromContext ctx with
    | some parentSpan => [(ChildOf (some parentSpan.Context)).Apply]
    | none => []
  let span := StartSpan tr operationName opts
  (span, ContextWithSpan ctx span)

/-- A `url.URL`, represented by its string form. -/
structure URL where
  text : String
  deriving DecidableEq, Repr

/-- `URL.String()`. -/
def URL.String (u : URL) : String :=
  u.text

/-- The fields of an `http.Request` that the factory reads. -/
structure Request where
  Method : String
  URL : URL
  Header : List (String × List String)
  ctx : Context

/-- `Request.Context()`. -/
def Request.Context (r : Request) : Context :=
  r.ctx

/-- `Request.WithContext(ctx)`: a copy of the request with its context replaced. -/
def Request.WithContext (r : Request) (ctx : Tracing.Context) : Request :=
  { r with ctx := ctx }

/-- An entry written by `logrus.Errorf(format, err)`. -/
structure LogEntry where
  level : Level
  format : String
  err : TraceError
  deriving DecidableEq, Repr

/-- The statement `if err != nil && err != opentracing.ErrSpanContextNotFound
{ logrus.Errorf(format, err) }`: the log entries it writes. -/
def logExtractError (format : String) (err : Option TraceError) : List LogEntry :=
  match err with
  | none => []
  | some e =>
    if e ≠ TraceError.ErrSpanContextNotFound then
      [{ level := Level.Error, format := format, err := e }]
    else []

/-- `HTTPOpName`. -/
def HTTPOpName (method path : String) : String :=
  method ++ " " ++ path

/-- `ComponentOpName`. -/
def ComponentOpName (cmp target : String) : String :=
  cmp ++ " " ++ target

/-- Results of `HTTPSpan`, with the log entries written during the call. -/
structure HTTPSpanResult where
  span : Span
  request : Request
  logs : List LogEntry

/-- `HTTPSpan`. The active tracer and the value of `runtime.NumGoroutine()` are
parameters. -/
def HTTPSpan (tr : Tracer) (numGoroutine : Nat) (path : String) (r : Request) :
    HTTPSpanResult :=
  let (ctx, err) := tr.Extract BuiltinFormat.HTTPHeaders (Carrier.HTTPHeadersCarrier r.Header)
  let logs := logExtractError "failed to extract HTTP span: %w" err
  let sp := StartSpan tr (HTTPOpName r.Method path) [ext.RPCServerOption ctx]
  let sp := ext.StringTagName.Set ext.HTTPMethod sp r.Method
  let sp := ext.StringTagName.Set ext.HTTPUrl sp r.URL.String
  let sp := ext.StringTagName.Set ext.Component sp "http"
  let sp := sp.SetTag "goroutines" (TagValue.int (Int.ofNat numGoroutine))
  { span := sp, request := r.WithContext (ContextWithSpan r.Context sp), logs := logs }

/-- `FinishHTTPSpan`. -/
def FinishHTTPSpan (sp : Span) (code : Int) : Span :=
  let sp := ext.Uint16TagName.Set ext.HTTPStatusCode sp (uint16 code)
  sp.Finish

/-- Results of `ConsumerSpan`, with the log entries written during the call. -/
structure ConsumerSpanResult where
  span : Span
  ctx : Context
  logs : List LogEntry

/-- The loop `for _, t := range tags { sp.SetTag(t.Key, t.Value) }`. -/
def setTags (sp : Span) (tags : List Tag) : Span :=
  tags.foldl (fun s t => s.SetTag t.Key t.Value) sp

/-- `ConsumerSpan`. The active tracer and the value of `runtime.NumGoroutine()`
are parameters. -/
def ConsumerSpan (tr : Tracer) (numGoroutine : Nat) (ctx : Context) (opName cmp : String)
    (hdr : List (String × String)) (tags : List Tag) : ConsumerSpanResult :=
  let (spCtx, err) := tr.Extract BuiltinFormat.HTTPHeaders (Carrier.TextMapCarrier hdr)
  let logs := logExtractError "failed to extract consumer span: %v" err
  let sp := StartSpan tr opName [({ ctx := spCtx } : consumerOption).Apply]
  let sp := ext.StringTagName.Set ext.Component sp cmp
  let sp := sp.SetTag "goroutines" (TagValue.int (Int.ofNat numGoroutine))
  let sp := setTags sp tags
  { span := sp, ctx := ContextWithSpan ctx sp, logs := logs }

/-- `SpanSuccess`. -/
def SpanSuccess (sp : Span) : Span :=
  (ext.BoolTagName.Set ext.Error sp false).Finish

/-- `SpanError`. -/
def SpanError (sp : Span) : Span :=
  (ext.BoolTagName.Set ext.Error sp true).Finish

/-- `ChildSpan`. The active tracer and the value of `runtime.NumGoroutine()` are
parameters. -/
def ChildSpan (tr : Tracer) (numGoroutine : Nat) (ctx : Context) (opName cmp : String)
    (tags : List Tag) : Span × Context :=
  let (sp, ctx) := StartSpanFromContext tr ctx opName
  let sp := ext.StringTagName.Set ext.Component sp cmp
  let sp := setTags sp tags
  let sp := sp.SetTag "goroutines" (TagValue.int (Int.ofNat numGoroutine))
  (sp, ctx)

/-- `SQLSpan`. The active tracer and the value of `runtime.NumGoroutine()` are
parameters. -/
def SQLSpan (tr : Tracer) (numGoroutine : Nat) (ctx : Context)
    (opName cmp sqlType inst user stmt : String) (tags : List Tag) : Span × Context :=
  let (sp, ctx) := StartSpanFromContext tr ctx opName
  let sp := ext.StringTagName.Set ext.Component sp cmp
  let sp := ext.StringTagName.Set ext.DBType sp sqlType
  let sp := ext.StringTagName.Set ext.DBInstance sp inst
  let sp := ext.StringTagName.Set ext.DBUser sp user
  let sp := ext.StringTagName.Set ext.DBStatement sp stmt
  let sp := setTags sp tags
  let sp := sp.SetTag "goroutines" (TagValue.int (Int.ofNat numGoroutine))
  (sp, ctx)

/-- The tag map after storing a list of tags in order, later ones overwriting
earlier ones with the same key. -/
def foldTags (m : TagMap) (tags : List Tag) : TagMap :=
  tags.foldl (fun acc t => acc.set t.Key t.Value) m

/-! ### Concrete values for the checks on explicit inputs -/

/-- A span context with trace id 7 and span id 9. -/
def exampleSpanContext : SpanContext :=
  { TraceID := 7, SpanID := 9, Baggage := [] }

/-- A tracer whose `Extract` returns a context together with an error that is
not the not-found sentinel. -/
def corruptTracer : Tracer :=
  { Extract := fun _ _ => (some exampleSpanContext, some (TraceError.other "corrupt")),
    NewContext := fun _ => { TraceID := 7, SpanID := 10, Baggage := [] } }

/-- A tracer whose `Extract` finds no context: `(nil, ErrSpanContextNotFound)`. -/
def notFoundTracer : Tracer :=
  { Extract := fun _ _ => (none, some TraceError.ErrSpanContextNotFound),
    NewContext := fun _ => { TraceID := 7, SpanID := 10, Baggage := [] } }

/-- A tracer whose `Extract` returns no context and an error that is not the
not-found sentinel. -/
def malformedTracer : Tracer :=
  { Extract := fun _ _ => (none, some (TraceError.other "malformed")),
    NewContext := fun _ => { TraceID := 7, SpanID := 10, Baggage := [] } }

/-- The tracer `tr` with an `Extract` that returns the given pair for every
carrier. -/
def withExtract (tr : Tracer) (res : Option SpanContext × Option TraceError) : Tracer :=
  { Extract := fun _ _ => res, NewContext := tr.NewContext }

/-- A context without a span. -/
def emptyContext : Context :=
  { span := none, values := [] }

/-- The request `GET http://example.com/users/42`. -/
def exampleRequest : Request :=
  { Method := "GET", URL := { text := "http://example.com/users/42" }, Header := [],
    ctx := emptyContext }

/-- A span just started, with no tags. -/
def exampleSpan : Span :=
  StartSpan notFoundTracer "op" []

/-- A transport constructor that succeeds. -/
def okTransport (hostPort : String) (maxPacketSize : Nat) : Except String Transport :=
  Except.ok { hostPort := hostPort, maxPacketSize := maxPacketSize }

end Tracing

/-! # Theorems -/

namespace Internal

/-! ## The registry -/

theorem SetGlobalTracer_globalTracer (t : Tracer) (s : Registry) :
    (SetGlobalTracer t s).globalTracer = t := by
  unfold SetGlobalTracer
  rfl

theorem SetGlobalTracer_Testing (t : Tracer) (s : Registry) :
    (SetGlobalTracer t s).Testing = s.Testing := by
  unfold SetGlobalTracer Tracer.Stop
  cases h : s.Testing <;> simp [h]

theorem SetGlobalTracer_stops (t : Tracer) (s : Registry) :
    (SetGlobalTracer t s).stops =
      if s.Testing then s.stops else s.stops ++ [s.globalTracer] := by
  unfold SetGlobalTracer Tracer.Stop
  cases h : s.Testing <;> simp [h]

theorem runSets_append (xs ys : List (Bool × Tracer)) (s : Registry) :
    runSets (xs ++ ys) s = runSets ys (runSets xs s) := by
  simp [runSets, List.foldl_append]

theorem setAll_cons (t : Tracer) (ts : List Tracer) (s : Registry) :
    setAll (t :: ts) s = setAll ts (SetGlobalTracer t s) := rfl

theorem setAll_Testing (ts : List Tracer) (s : Registry) :
    (setAll ts s).Testing = s.Testing := by
  induction ts generalizing s with
  | nil => rfl
  | cons t ts ih => rw [setAll_cons, ih, SetGlobalTracer_Testing]

/-- With `Testing` false, the `Stop` calls made by a sequence of `Set` calls are,
in order, on the tracer that is active before each call. -/
theorem setAll_stops (ts : List Tracer) (s : Registry) (h : s.Testing = false) :
    (setAll ts s).stops =
      s.stops ++ (List.range ts.length).map
        (fun i => GetGlobalTracer (setAll (ts.take i) s)) := by
  induction ts generalizing s with
  | nil => simp [setAll]
  | cons t ts ih =>
    have hT : (SetGlobalTracer t s).Testing = false := by
      rw [SetGlobalTracer_Testing, h]
    rw [setAll_cons, ih _ hT, SetGlobalTracer_stops, h]
    simp [List.range_succ_eq_map, List.map_map, Function.comp_def, setAll_cons,
      GetGlobalTracer, setAll]

/-- C1: in the sequential model of the registry, `GetGlobalTracer` after any
finite sequence of `SetGlobalTracer` calls, each made with `Testing` true or
false, returns the argument of the last call; on the freshly initialised
registry (the empty sequence) it returns the no-op tracer. -/
theorem get_returns_last_set :
    (∀ (calls : List (Bool × Tracer)) (testing : Bool) (t : Tracer),
      GetGlobalTracer (runSets (calls ++ [(testing, t)]) Registry.init) = t) ∧
    GetGlobalTracer (runSets [] Registry.init) = Tracer.NoopTracer := by
  constructor
  · intro calls testing t
    rw [runSets_append]
    simp [runSets, GetGlobalTracer, SetGlobalTracer_globalTracer]
  · rfl

/-- C2 as stated fails: take for A the tracer the fresh registry already holds
(the value `GetGlobalTracer()` returns before any `Set`). With `Testing` false,
`Set(A)` stops it once as the previous tracer and `Set(B)` stops it again, so
`Stop` is invoked on A twice, not once. -/
theorem stop_once_counterexample :
    stopCount Tracer.NoopTracer
        (SetGlobalTracer (Tracer.impl 1)
          (SetGlobalTracer Tracer.NoopTracer (setTesting false Registry.init))) = 2 ∧
    ¬ (∀ A B : Tracer,
        stopCount A
          (SetGlobalTracer B (SetGlobalTracer A (setTesting false Registry.init))) = 1) := by
  refine ⟨by decide, fun h => ?_⟩
  have h2 := h Tracer.NoopTracer (Tracer.impl 1)
  revert h2
  decide

/-- C2 (amended): from a freshly initialised registry, `Set(A)` followed by
`Set(B)` with `Testing` false makes exactly two `Stop` calls, the first on the
initial no-op tracer and the second on A; so `Stop` is invoked on A exactly once
when A is not the initial no-op tracer, and twice when it is. With `Testing`
true no `Stop` call is made, so zero on A. -/
theorem stop_calls_of_two_sets (A B : Tracer) (testing : Bool) :
    (SetGlobalTracer B (SetGlobalTracer A (setTesting testing Registry.init))).stops =
        (if testing then [] else [Tracer.NoopTracer, A]) ∧
    stopCount A (SetGlobalTracer B (SetGlobalTracer A (setTesting testing Registry.init))) =
        (if testing then 0 else if A = Tracer.NoopTracer then 2 else 1) := by
  cases testing
  · by_cases hA : A = Tracer.NoopTracer
    · subst hA
      simp [stopCount, SetGlobalTracer_stops, SetGlobalTracer_Testing,
        SetGlobalTracer_globalTracer, setTesting, Registry.init]
    · have hA2 : ¬ (Tracer.NoopTracer = A) := fun h => hA h.symm
      simp [stopCount, SetGlobalTracer_stops, SetGlobalTracer_Testing,
        SetGlobalTracer_globalTracer, setTesting, Registry.init, hA, hA2,
        List.count_cons]
  · simp [stopCount, SetGlobalTracer_stops, SetGlobalTracer_Testing, setTesting,
      Registry.init]

/-- C10: `SetGlobalTracer` makes no check that the new tracer differs from the
active one. With `Testing` false, setting the active tracer `t` again calls
`Stop` on `t` and leaves `t` active; after two `Set(t)` calls on a fresh
registry the active tracer is one the registry has stopped; and `n` calls make
exactly `n` `Stop` calls, the `i`-th on the tracer active just before it. -/
theorem set_stops_active_tracer (t : Tracer) (ts : List Tracer) (s : Registry)
    (hT : s.Testing = false) :
    (s.globalTracer = t →
      (SetGlobalTracer t s).stops = s.stops ++ [t] ∧
      GetGlobalTracer (SetGlobalTracer t s) = t) ∧
    GetGlobalTracer (setAll [t, t] Registry.init) ∈ (setAll [t, t] Registry.init).stops ∧
    (setAll ts s).stops =
      s.stops ++ (List.range ts.length).map
        (fun i => GetGlobalTracer (setAll (ts.take i) s)) ∧
    (setAll ts s).stops.length = s.stops.length + ts.length := by
  refine ⟨?_, ?_, setAll_stops ts s hT, ?_⟩
  · intro hg
    simp [SetGlobalTracer_stops, hT, hg, GetGlobalTracer, SetGlobalTracer_globalTracer]
  · simp [setAll, GetGlobalTracer, SetGlobalTracer_stops, SetGlobalTracer_globalTracer,
      SetGlobalTracer_Testing, Registry.init]
  · rw [setAll_stops ts s hT]
    simp

/-- Witness for C10: the registry holding tracer 7 with `Testing` false, the
tracer 7 set again, then the calls `Set(8)`, `Set(8)`. -/
theorem set_stops_active_tracer_witness :
    (setAll [Tracer.impl 8, Tracer.impl 8]
        { globalTracer := Tracer.impl 7, Testing := false, stops := [] }).stops.length
      = 0 + 2 :=
  (set_stops_active_tracer (Tracer.impl 7) [Tracer.impl 8, Tracer.impl 8]
    { globalTracer := Tracer.impl 7, Testing := false, stops := [] } rfl).2.2.2

/-! ## The no-op backend -/

theorem NoopSpanCall_foldl (calls : List NoopSpanCall) (sp : NoopSpan) :
    calls.foldl NoopSpanCall.run sp = sp := by
  induction calls generalizing sp with
  | nil => rfl
  | cons c cs ih => cases c <;> exact ih _

/-- C3: every operation of the no-op backend returns its fixed neutral result.
`NoopTracer.Extract` returns, for a carrier of any type, the empty
`NoopSpanContext` (trace id 0, span id 0, the handler of `ForeachBaggageItem`
is never called) and a nil error; `NoopTracer.Inject` returns nil for every
context and carrier; `NoopSpan.BaggageItem(k)` is the empty string for every
key, also after `SetBaggageItem(k, v)` and after any other setter calls. -/
theorem noop_backend_neutral :
    (∀ (κ : Type) (tr : NoopTracer) (carrier : κ),
      tr.Extract carrier = (({} : NoopSpanContext), (none : Option String)) ∧
      (tr.Extract carrier).2 = none ∧
      (tr.Extract carrier).1.TraceID = 0 ∧
      (tr.Extract carrier).1.SpanID = 0 ∧
      ∀ handler : String → String → Bool,
        (tr.Extract carrier).1.ForeachBaggageItem handler = []) ∧
    (∀ (γ κ : Type) (tr : NoopTracer) (context : γ) (carrier : κ),
      tr.Inject context carrier = none) ∧
    (∀ (calls : List NoopSpanCall) (sp : NoopSpan) (k v : String),
      sp.BaggageItem k = "" ∧
      (sp.SetBaggageItem k v).BaggageItem k = "" ∧
      ((calls.foldl NoopSpanCall.run sp).SetBaggageItem k v).BaggageItem k = "" ∧
      (calls.foldl NoopSpanCall.run (sp.SetBaggageItem k v)).BaggageItem k = "") := by
  refine ⟨?_, ?_, ?_⟩
  · intro κ tr carrier
    exact ⟨rfl, rfl, rfl, rfl, fun _ => rfl⟩
  · intro γ κ tr context carrier
    rfl
  · intro calls sp k v
    exact ⟨rfl, rfl, rfl, rfl⟩

end Internal

namespace Tracing

/-! ## Tag maps and the recording span -/

theorem TagMap.set_same (m : TagMap) (k : String) (v : TagValue) :
    m.set k v k = some v := by
  simp [TagMap.set]

theorem TagMap.set_other (m : TagMap) (k key : String) (v : TagValue) (h : key ≠ k) :
    m.set k v key = m key := by
  simp [TagMap.set, h]

theorem setTags_Tags (sp : Span) (tags : List Tag) :
    (setTags sp tags).Tags = foldTags sp.Tags tags := by
  induction tags generalizing sp with
  | nil => rfl
  | cons t ts ih =>
    simp only [setTags, foldTags, List.foldl_cons] at ih ⊢
    rw [ih]
    rfl

theorem setTags_References (sp : Span) (tags : List Tag) :
    (setTags sp tags).References = sp.References := by
  induction tags generalizing sp with
  | nil => rfl
  | cons t ts ih =>
    simp only [setTags, List.foldl_cons] at ih ⊢
    rw [ih]
    rfl

theorem setTags_OperationName (sp : Span) (tags : List Tag) :
    (setTags sp tags).OperationName = sp.OperationName := by
  induction tags generalizing sp with
  | nil => rfl
  | cons t ts ih =>
    simp only [setTags, List.foldl_cons] at ih ⊢
    rw [ih]
    rfl

theorem foldTags_append (m : TagMap) (xs ys : List Tag) :
    foldTags m (xs ++ ys) = foldTags (foldTags m xs) ys := by
  simp [foldTags, List.foldl_append]

/-- The value a fold of tags leaves under a key: the value of the last tag of
the list with that key, or the earlier value when the list has none. -/
theorem foldTags_lookup (m : TagMap) (tags : List Tag) (key : String) :
    foldTags m tags key =
      match (tags.filter (fun t => t.Key = key)).getLast? with
      | some t => some t.Value
      | none => m key := by
  induction tags using List.reverseRecOn with
  | nil => simp [foldTags]
  | append_singleton ts t ih =>
    rw [foldTags_append]
    by_cases h : t.Key = key
    · simp [foldTags, TagMap.set, h, List.filter_append]
    · have h2 : ¬ (key = t.Key) := fun e => h e.symm
      simp only [foldTags, List.foldl_cons, List.foldl_nil] at ih ⊢
      simp [TagMap.set, h, h2, List.filter_append, ih]

/-! ## The span factory -/

theorem StartSpan_single (tr : Tracer) (operationName : String) (opt : StartSpanOption) :
    StartSpan tr operationName [opt] =
      { OperationName := operationName,
        References := (opt { References := [], Tags := TagMap.empty }).References,
        Tags := (opt { References := [], Tags := TagMap.empty }).Tags,
        Ctx := tr.NewContext (opt { References := [], Tags := TagMap.empty }).References,
        Calls := [] } := rfl

theorem consumerOption_Apply_References (ctx : Option SpanContext) (o : StartSpanOptions) :
    (consumerOption.Apply { ctx := ctx } o).References =
      o.References ++ (match ctx with
        | some c => [ChildOf (some c)]
        | none => []) := by
  cases ctx <;> simp [consumerOption.Apply, SpanReference.Apply, ChildOf, Tag.Apply]

theorem RPCServerOption_References (ctx : Option SpanContext) (o : StartSpanOptions) :
    (ext.RPCServerOption ctx o).References =
      o.References ++ (match ctx with
        | some c => [ChildOf (some c)]
        | none => []) := by
  cases ctx <;> simp [ext.RPCServerOption, SpanReference.Apply, ChildOf, Tag.Apply]

/-- C5: for every request `r` and route path `p`, `HTTPSpan(p, r)` starts a
server-kind span named `HTTPOpName(r.Method, p) = r.Method ++ " " ++ p` (the
path argument, not the URL of the request); the span returned carries the tags
`http.method = r.Method`, `http.url = r.URL.String()` and `component = "http"`,
and the context of the returned request carries that span. For the method
`GET` and the path `/users/42` the name is `GET /users/42`. -/
theorem HTTPSpan_name_and_tags (tr : Tracer) (numGoroutine : Nat) (p : String) (r : Request) :
    (HTTPSpan tr numGoroutine p r).span.OperationName = HTTPOpName r.Method p ∧
    HTTPOpName r.Method p = r.Method ++ " " ++ p ∧
    (StartSpan tr (HTTPOpName r.Method p)
        [ext.RPCServerOption
          (tr.Extract BuiltinFormat.HTTPHeaders (Carrier.HTTPHeadersCarrier r.Header)).1]).Tags
        "span.kind" = some (TagValue.spanKind "server") ∧
    (HTTPSpan tr numGoroutine p r).span.Tags "span.kind" = some (TagValue.spanKind "server") ∧
    (HTTPSpan tr numGoroutine p r).span.Tags "http.method" = some (TagValue.str r.Method) ∧
    (HTTPSpan tr numGoroutine p r).span.Tags "http.url" = some (TagValue.str r.URL.String) ∧
    (HTTPSpan tr numGoroutine p r).span.Tags "component" = some (TagValue.str "http") ∧
    SpanFromContext (HTTPSpan tr numGoroutine p r).request.Context
        = some (HTTPSpan tr numGoroutine p r).span ∧
    (HTTPSpan tr numGoroutine "/users/42" exampleRequest).span.OperationName
        = "GET /users/42" ∧
    HTTPOpName "GET" "/users/42" = "GET /users/42" := by
  refine ⟨rfl, rfl, ?_, ?_, ?_, ?_, ?_, rfl, ?_, ?_⟩
  · simp [StartSpan, ext.RPCServerOption, Tag.Apply, ext.SpanKindRPCServer, ext.SpanKind,
      TagMap.set]
  · simp [HTTPSpan, StartSpan, ext.RPCServerOption, Tag.Apply, ext.SpanKindRPCServer,
      ext.SpanKind, TagMap.set, ext.StringTagName.Set, Span.SetTag, ext.HTTPMethod,
      ext.HTTPUrl, ext.Component]
  · simp [HTTPSpan, ext.StringTagName.Set, Span.SetTag, TagMap.set, ext.HTTPMethod,
      ext.HTTPUrl, ext.Component]
  · simp [HTTPSpan, ext.StringTagName.Set, Span.SetTag, TagMap.set, ext.HTTPMethod,
      ext.HTTPUrl, ext.Component]
  · simp [HTTPSpan, ext.StringTagName.Set, Span.SetTag, TagMap.set, ext.HTTPMethod,
      ext.HTTPUrl, ext.Component]
  · simp [HTTPSpan, HTTPOpName, exampleRequest, ext.StringTagName.Set, Span.SetTag,
      StartSpan]
  · decide

theorem uint16_cast (code : Int) : (Int.ofNat (uint16 code)) = code % 65536 := by
  unfold uint16
  have h : (0 : Int) ≤ code % 65536 := Int.emod_nonneg code (by decide)
  simpa using Int.toNat_of_nonneg h

theorem uint16_lt (code : Int) : uint16 code < 65536 := by
  unfold uint16
  omega

/-- C6 as stated fails: the code is converted to `uint16` before it is stored.
For the status code 65940 (= 65536 + 404) the tag `http.status_code` gets the
value 404, and for the status code -1 it gets 65535. -/
theorem FinishHTTPSpan_counterexample :
    ((FinishHTTPSpan exampleSpan 65940).Tags "http.status_code").bind TagValue.toInt
        = some 404 ∧
    ((FinishHTTPSpan exampleSpan 65940).Tags "http.status_code").bind TagValue.toInt
        ≠ some 65940 ∧
    ((FinishHTTPSpan exampleSpan (-1)).Tags "http.status_code").bind TagValue.toInt
        = some 65535 := by
  refine ⟨?_, ?_, ?_⟩ <;>
    simp [FinishHTTPSpan, ext.Uint16TagName.Set, Span.SetTag, Span.Finish, TagMap.set,
      ext.HTTPStatusCode, TagValue.toInt, uint16]

/-- C6 (amended): for every span and every `int` status code `c`,
`FinishHTTPSpan(sp, c)` makes exactly two calls on the span: first it sets the
tag `http.status_code` to `uint16(c)`, which is `c mod 65536`, and then it calls
`Finish`, once. The recorded value is `c` itself exactly when
`0 ≤ c ≤ 65535`; for `c = 404` it is 404. -/
theorem FinishHTTPSpan_records_uint16 (sp : Span) (c : Int) :
    (FinishHTTPSpan sp c).Calls =
      sp.Calls ++ [SpanCall.SetTag "http.status_code" (TagValue.uint16 (uint16 c)),
        SpanCall.Finish] ∧
    (FinishHTTPSpan sp c).finishCount = sp.finishCount + 1 ∧
    (FinishHTTPSpan sp c).Tags "http.status_code" = some (TagValue.uint16 (uint16 c)) ∧
    ((FinishHTTPSpan sp c).Tags "http.status_code").bind TagValue.toInt
        = some (c % 65536) ∧
    (((FinishHTTPSpan sp c).Tags "http.status_code").bind TagValue.toInt = some c
        ↔ (0 ≤ c ∧ c ≤ 65535)) ∧
    (FinishHTTPSpan sp 404).Tags "http.status_code" = some (TagValue.uint16 404) := by
  have hTag : (FinishHTTPSpan sp c).Tags "http.status_code"
      = some (TagValue.uint16 (uint16 c)) := by
    simp [FinishHTTPSpan, ext.Uint16TagName.Set, Span.SetTag, Span.Finish, TagMap.set,
      ext.HTTPStatusCode]
  have hInt : ((FinishHTTPSpan sp c).Tags "http.status_code").bind TagValue.toInt
      = some (c % 65536) := by
    rw [hTag]
    simp only [Option.some_bind, TagValue.toInt, uint16_cast]
  refine ⟨?_, ?_, hTag, hInt, ?_, ?_⟩
  · simp [FinishHTTPSpan, ext.Uint16TagName.Set, Span.SetTag, Span.Finish,
      ext.HTTPStatusCode]
  · simp [FinishHTTPSpan, ext.Uint16TagName.Set, Span.SetTag, Span.Finish,
      Span.finishCount, List.count_append]
  · rw [hInt]
    constructor
    · intro h
      have h1 : c % 65536 = c := by simpa using h
      have h2 : (0 : Int) ≤ c % 65536 := Int.emod_nonneg c (by decide)
      have h3 : c % 65536 < 65536 := Int.emod_lt_of_pos c (by decide)
      omega
    · rintro ⟨h0, h1⟩
      have : c % 65536 = c := Int.emod_eq_of_lt h0 (by omega)
      rw [this]
  · simp [FinishHTTPSpan, ext.Uint16TagName.Set, Span.SetTag, Span.Finish, TagMap.set,
      ext.HTTPStatusCode, uint16]

/-- C7: for every extracted span context, present or absent, the start options
that `consumerOption.Apply` produces contain the tag `span.kind = consumer`, and
they gain a child-of reference to the extracted context exactly when that
context is present; when it is absent no reference is added, and the span that
`ConsumerSpan` starts and returns has no reference (it is a root). -/
theorem consumerOption_kind_and_parent (tr : Tracer) (numGoroutine : Nat) (ctx : Context)
    (opName cmp : String) (hdr : List (String × String)) (tags : List Tag)
    (spCtx : Option SpanContext) (o : StartSpanOptions) :
    (consumerOption.Apply { ctx := spCtx } o).Tags "span.kind"
        = some (TagValue.spanKind "consumer") ∧
    (consumerOption.Apply { ctx := spCtx } o).References =
        o.References ++ (match spCtx with
          | some c => [ChildOf (some c)]
          | none => []) ∧
    (∀ c : SpanContext,
      ChildOf (some c) ∈
          (consumerOption.Apply { ctx := spCtx } { References := [], Tags := TagMap.empty }).References
        ↔ spCtx = some c) ∧
    ((consumerOption.Apply { ctx := spCtx } { References := [], Tags := TagMap.empty }).References = []
        ↔ spCtx = none) ∧
    (StartSpan tr opName [({ ctx := spCtx } : consumerOption).Apply]).Tags "span.kind"
        = some (TagValue.spanKind "consumer") ∧
    (ConsumerSpan tr numGoroutine ctx opName cmp hdr tags).span.References =
        (match (tr.Extract BuiltinFormat.HTTPHeaders (Carrier.TextMapCarrier hdr)).1 with
          | some c => [ChildOf (some c)]
          | none => []) := by
  refine ⟨?_, consumerOption_Apply_References spCtx o, ?_, ?_, ?_, ?_⟩
  · simp [consumerOption.Apply, Tag.Apply, ext.SpanKindConsumer, ext.SpanKind, TagMap.set]
  · intro c
    rw [consumerOption_Apply_References]
    cases spCtx <;> simp [ChildOf, eq_comm]
  · rw [consumerOption_Apply_References]
    cases spCtx <;> simp
  · simp [StartSpan, consumerOption.Apply, Tag.Apply, ext.SpanKindConsumer, ext.SpanKind,
      TagMap.set]
  · simp only [ConsumerSpan, setTags_References]
    simp [ext.StringTagName.Set, Span.SetTag, StartSpan_single,
      consumerOption_Apply_References]

theorem logExtractError_iff (format : String) (err : Option TraceError) :
    (∃ e ∈ logExtractError format err, e.level = Level.Error) ↔
      (err ≠ none ∧ err ≠ some TraceError.ErrSpanContextNotFound) := by
  cases err with
  | none => simp [logExtractError]
  | some e =>
    by_cases h : e = TraceError.ErrSpanContextNotFound
    · simp [logExtractError, h]
    · simp [logExtractError, h]

theorem HTTPSpan_References (tr : Tracer) (numGoroutine : Nat) (path : String) (r : Request) :
    (HTTPSpan tr numGoroutine path r).span.References =
      (match (tr.Extract BuiltinFormat.HTTPHeaders (Carrier.HTTPHeadersCarrier r.Header)).1 with
        | some c => [ChildOf (some c)]
        | none => []) := by
  simp [HTTPSpan, ext.StringTagName.Set, Span.SetTag, StartSpan_single,
    RPCServerOption_References]

theorem ConsumerSpan_References (tr : Tracer) (numGoroutine : Nat) (ctx : Context)
    (opName cmp : String) (hdr : List (String × String)) (tags : List Tag) :
    (ConsumerSpan tr numGoroutine ctx opName cmp hdr tags).span.References =
      (match (tr.Extract BuiltinFormat.HTTPHeaders (Carrier.TextMapCarrier hdr)).1 with
        | some c => [ChildOf (some c)]
        | none => []) := by
  simp only [ConsumerSpan, setTags_References]
  simp [ext.StringTagName.Set, Span.SetTag, StartSpan_single,
    consumerOption_Apply_References]

/-- C4 as stated fails: when `Extract` returns a context value together with an
error that is not the not-found sentinel, `ConsumerSpan` and `HTTPSpan` log the
error and still start the span as a child of that context value, while in the
not-found case the span has no reference. -/
theorem extract_error_counterexample :
    (ConsumerSpan corruptTracer 1 emptyContext "op" "cmp" [] []).span.References
        = [ChildOf (some exampleSpanContext)] ∧
    (ConsumerSpan corruptTracer 1 emptyContext "op" "cmp" [] []).logs
        = [{ level := Level.Error, format := "failed to extract consumer span: %v",
             err := TraceError.other "corrupt" }] ∧
    (ConsumerSpan notFoundTracer 1 emptyContext "op" "cmp" [] []).span.References = [] ∧
    (HTTPSpan corruptTracer 1 "/users/42" exampleRequest).span.References
        = [ChildOf (some exampleSpanContext)] ∧
    (HTTPSpan notFoundTracer 1 "/users/42" exampleRequest).span.References = [] ∧
    (ConsumerSpan corruptTracer 1 emptyContext "op" "cmp" [] []).span
        ≠ (ConsumerSpan notFoundTracer 1 emptyContext "op" "cmp" [] []).span ∧
    (HTTPSpan corruptTracer 1 "/users/42" exampleRequest).span
        ≠ (HTTPSpan notFoundTracer 1 "/users/42" exampleRequest).span := by
  have hC1 : (ConsumerSpan corruptTracer 1 emptyContext "op" "cmp" [] []).span.References
      = [ChildOf (some exampleSpanContext)] := by
    rw [ConsumerSpan_References]; rfl
  have hC2 : (ConsumerSpan notFoundTracer 1 emptyContext "op" "cmp" [] []).span.References
      = [] := by
    rw [ConsumerSpan_References]; rfl
  have hH1 : (HTTPSpan corruptTracer 1 "/users/42" exampleRequest).span.References
      = [ChildOf (some exampleSpanContext)] := by
    rw [HTTPSpan_References]; rfl
  have hH2 : (HTTPSpan notFoundTracer 1 "/users/42" exampleRequest).span.References
      = [] := by
    rw [HTTPSpan_References]; rfl
  refine ⟨hC1, ?_, hC2, hH1, hH2, ?_, ?_⟩
  · simp [ConsumerSpan, corruptTracer, logExtractError]
  · intro h
    have h2 := congrArg Span.References h
    rw [hC1, hC2] at h2
    exact List.cons_ne_nil _ _ h2
  · intro h
    have h2 := congrArg Span.References h
    rw [hH1, hH2] at h2
    exact List.cons_ne_nil _ _ h2

/-- C4 (amended): for `HTTPSpan` and `ConsumerSpan` and every pair (context
value, error) that `Extract` of the active tracer returns: an error-level log
entry is written if and only if the error is non-nil and is not
`ErrSpanContextNotFound`; a span is started and returned in every case, and it
is the span that would be started had `Extract` returned the same context value
with a nil error, so it has a child-of reference to the context value exactly
when that value is non-nil. When the context value returned alongside the error
is nil, the span is started exactly as in the not-found case, with no parent
reference. -/
theorem extract_error_logged_span_started (tr : Tracer) (numGoroutine : Nat) (path : String)
    (r : Request) (ctx : Context) (opName cmp : String) (hdr : List (String × String))
    (tags : List Tag) :
    ((∃ e ∈ (HTTPSpan tr numGoroutine path r).logs, e.level = Level.Error) ↔
      ((tr.Extract BuiltinFormat.HTTPHeaders (Carrier.HTTPHeadersCarrier r.Header)).2 ≠ none ∧
       (tr.Extract BuiltinFormat.HTTPHeaders (Carrier.HTTPHeadersCarrier r.Header)).2
          ≠ some TraceError.ErrSpanContextNotFound)) ∧
    ((∃ e ∈ (ConsumerSpan tr numGoroutine ctx opName cmp hdr tags).logs,
        e.level = Level.Error) ↔
      ((tr.Extract BuiltinFormat.HTTPHeaders (Carrier.TextMapCarrier hdr)).2 ≠ none ∧
       (tr.Extract BuiltinFormat.HTTPHeaders (Carrier.TextMapCarrier hdr)).2
          ≠ some TraceError.ErrSpanContextNotFound)) ∧
    (HTTPSpan tr numGoroutine path r).span =
      (HTTPSpan (withExtract tr
        ((tr.Extract BuiltinFormat.HTTPHeaders (Carrier.HTTPHeadersCarrier r.Header)).1, none))
        numGoroutine path r).span ∧
    (ConsumerSpan tr numGoroutine ctx opName cmp hdr tags).span =
      (ConsumerSpan (withExtract tr
        ((tr.Extract BuiltinFormat.HTTPHeaders (Carrier.TextMapCarrier hdr)).1, none))
        numGoroutine ctx opName cmp hdr tags).span ∧
    (HTTPSpan tr numGoroutine path r).span.References =
      (match (tr.Extract BuiltinFormat.HTTPHeaders (Carrier.HTTPHeadersCarrier r.Header)).1 with
        | some c => [ChildOf (some c)]
        | none => []) ∧
    (ConsumerSpan tr numGoroutine ctx opName cmp hdr tags).span.References =
      (match (tr.Extract BuiltinFormat.HTTPHeaders (Carrier.TextMapCarrier hdr)).1 with
        | some c => [ChildOf (some c)]
        | none => []) ∧
    ((tr.Extract BuiltinFormat.HTTPHeaders (Carrier.HTTPHeadersCarrier r.Header)).1 = none →
      (HTTPSpan tr numGoroutine path r).span =
        (HTTPSpan (withExtract tr (none, some TraceError.ErrSpanContextNotFound))
          numGoroutine path r).span ∧
      (HTTPSpan tr numGoroutine path r).span.References = []) ∧
    ((tr.Extract BuiltinFormat.HTTPHeaders (Carrier.TextMapCarrier hdr)).1 = none →
      (ConsumerSpan tr numGoroutine ctx opName cmp hdr tags).span =
        (ConsumerSpan (withExtract tr (none, some TraceError.ErrSpanContextNotFound))
          numGoroutine ctx opName cmp hdr tags).span ∧
      (ConsumerSpan tr numGoroutine ctx opName cmp hdr tags).span.References = []) := by
  refine ⟨?_, ?_, rfl, rfl, HTTPSpan_References tr numGoroutine path r,
    ConsumerSpan_References tr numGoroutine ctx opName cmp hdr tags, ?_, ?_⟩
  · exact logExtractError_iff _ _
  · exact logExtractError_iff _ _
  · intro h
    refine ⟨?_, ?_⟩
    · simp only [HTTPSpan, withExtract, h]
      rfl
    · rw [HTTPSpan_References, h]
  · intro h
    refine ⟨?_, ?_⟩
    · simp only [ConsumerSpan, withExtract, h]
      rfl
    · rw [ConsumerSpan_References, h]

/-- Witness for C4: a tracer whose `Extract` returns a nil context and an error
that is not the not-found sentinel; the span of `HTTPSpan` has no reference. -/
theorem extract_error_logged_span_started_witness :
    (HTTPSpan malformedTracer 3 "/users/42" exampleRequest).span.References = [] :=
  ((extract_error_logged_span_started malformedTracer 3 "/users/42" exampleRequest
    emptyContext "op" "cmp" [] []).2.2.2.2.2.2.1 rfl).2

/-! ## Options of `InitTracing` -/

theorem foldl_options_sampleProbability (calls : List OptionCall) (o : options) :
    ((calls.map OptionCall.eval).foldl (fun opts f => f opts) o).sampleProbability =
      (lastSampleProbability calls).getD o.sampleProbability := by
  induction calls using List.reverseRecOn with
  | nil => simp [lastSampleProbability]
  | append_singleton cs c ih =>
    cases c with
    | WithSampleProbability p =>
      simp [lastSampleProbability, List.filterMap_append, List.foldl_append,
        OptionCall.eval, OptionCall.sampleProbability?, WithSampleProbability]
    | WithEnableInfoLog b =>
      simp only [lastSampleProbability] at ih
      simp [lastSampleProbability, List.filterMap_append, List.foldl_append,
        OptionCall.eval, OptionCall.sampleProbability?, WithEnableInfoLog, ih]

theorem applyOptions_sampleProbability (calls : List OptionCall) :
    (applyOptions (calls.map OptionCall.eval)).sampleProbability = effectiveProbability calls :=
  foldl_options_sampleProbability calls defaultOptions

theorem Float64.gtZero_of_gtOne (x : Float64) (h : x.gtOne = true) : x.gtZero = true := by
  cases x with
  | finite negative mantissa exponent =>
    simp only [Float64.gtOne, Bool.and_eq_true, decide_eq_true_eq] at h
    simp only [Float64.gtZero, Bool.and_eq_true, decide_eq_true_eq]
    refine ⟨h.1, ?_⟩
    rcases Nat.eq_zero_or_pos mantissa with h0 | h0
    · rw [h0] at h
      simp at h
    · exact h0
  | inf negative => exact h
  | nan => exact h

theorem Float64.ltZero_of_gtZero (x : Float64) (h : x.gtZero = true) : x.ltZero = false := by
  cases x with
  | finite negative mantissa exponent =>
    simp only [Float64.gtZero, Bool.and_eq_true, Bool.not_eq_true'] at h
    simp [Float64.ltZero, h.1]
  | inf negative =>
    simp only [Float64.gtZero, Bool.not_eq_true'] at h
    simp [Float64.ltZero, h]
  | nan => rfl

/-- The sampler `InitTracing` hands to `jaeger.NewTracer`, by the effective
probability: nil above one, probabilistic in `(0, 1]`, constant otherwise. -/
theorem initResultFor_sampler (serviceName : String) (transport : Transport) (opts : options) :
    (initResultFor serviceName transport opts).tracer.sampler =
      (if opts.sampleProbability.gtOne then none
       else if opts.sampleProbability.gtZero then
         some (Sampler.ProbabilisticSampler opts.sampleProbability)
       else some (Sampler.ConstSampler true)) := by
  cases hg : opts.sampleProbability.gtZero
  · have h1 : opts.sampleProbability.gtOne = false := by
      cases h : opts.sampleProbability.gtOne
      · rfl
      · rw [Float64.gtZero_of_gtOne _ h] at hg
        exact absurd hg (by decide)
    simp [initResultFor, hg, h1, NewConstSampler]
  · have hl := Float64.ltZero_of_gtZero _ hg
    cases h1 : opts.sampleProbability.gtOne <;>
      simp [initResultFor, hg, h1, hl, NewProbabilisticSampler]

theorem InitTracing_fresh_ok (NewUDPTransport : String → Nat → Except String Transport)
    (serviceName tracingAgentHostPort : String) (opt : List TracingOption)
    (transport : Transport)
    (hT : NewUDPTransport tracingAgentHostPort 0 = Except.ok transport) :
    InitTracing NewUDPTransport Process.fresh serviceName tracingAgentHostPort opt =
      ({ metricsRegistered := true },
        Outcome.returned (Except.ok (initResultFor serviceName transport (applyOptions opt)))) := by
  simp only [InitTracing, NewMetrics, Process.fresh, hT, initResultFor]
  cases hg : (applyOptions opt).sampleProbability.gtZero <;> simp

theorem applyOptions_append_infoLog (opt : List TracingOption) (b : Bool) :
    (applyOptions (opt ++ [WithEnableInfoLog b])).sampleProbability =
      (applyOptions opt).sampleProbability := by
  simp [applyOptions, List.foldl_append, WithEnableInfoLog]

/-- C8, evaluated on the code: the option fold and the branch are as the claim
says (the effective probability is that of the last `WithSampleProbability`, or
`0.0`; each option changes only its own field; the probabilistic branch is
taken exactly for a probability `> 0`, the constant sampler otherwise, for zero
and every negative value). But the tracer is built with a probabilistic sampler
at that rate only for a probability in `(0, 1]`: for `1.5` and for `+Inf` the
error of `NewProbabilisticSampler` is dropped, `InitTracing` returns a nil
error and a tracer whose sampler is nil. A second call in one process panics
at the metrics registration, and `enableInfoLog` has no effect on the result:
the logging reporter is installed whatever the option. -/
theorem InitTracing_sampler :
    ((InitTracing okTransport Process.fresh "svc" "localhost:6831"
        [WithSampleProbability (Float64.finite false 3 (-1))]).2.tracer?).map
          JaegerTracer.sampler = some none ∧
    ((InitTracing okTransport Process.fresh "svc" "localhost:6831"
        [WithSampleProbability (Float64.inf false)]).2.tracer?).map
          JaegerTracer.sampler = some none ∧
    ((InitTracing okTransport Process.fresh "svc" "localhost:6831"
        [WithSampleProbability (Float64.finite false 1 (-1))]).2.tracer?).map
          JaegerTracer.sampler
      = some (some (Sampler.ProbabilisticSampler (Float64.finite false 1 (-1)))) ∧
    ((InitTracing okTransport Process.fresh "svc" "localhost:6831" []).2.tracer?).map
          JaegerTracer.sampler
      = some (some (Sampler.ConstSampler true)) ∧
    (∀ calls : List OptionCall,
      (applyOptions (calls.map OptionCall.eval)).sampleProbability
        = effectiveProbability calls) ∧
    (∀ (o : options) (p : Float64) (b : Bool),
      (WithSampleProbability p o).sampleProbability = p ∧
      (WithSampleProbability p o).enableInfoLog = o.enableInfoLog ∧
      (WithEnableInfoLog b o).enableInfoLog = b ∧
      (WithEnableInfoLog b o).sampleProbability = o.sampleProbability) ∧
    (∀ (NewUDPTransport : String → Nat → Except String Transport)
        (serviceName tracingAgentHostPort : String) (calls : List OptionCall)
        (transport : Transport),
      NewUDPTransport tracingAgentHostPort 0 = Except.ok transport →
      ∃ res : InitResult,
        InitTracing NewUDPTransport Process.fresh serviceName tracingAgentHostPort
            (calls.map OptionCall.eval)
          = ({ metricsRegistered := true }, Outcome.returned (Except.ok res)) ∧
        res.tracer.serviceName = serviceName ∧
        res.tracer.sampler =
          (if (effectiveProbability calls).gtZero then
            (NewProbabilisticSampler (effectiveProbability calls)).1
          else some (NewConstSampler true)) ∧
        (res.tracer.sampler = some (Sampler.ProbabilisticSampler (effectiveProbability calls))
          ↔ ((effectiveProbability calls).gtZero = true ∧
             (effectiveProbability calls).gtOne = false)) ∧
        (res.tracer.sampler = none ↔ (effectiveProbability calls).gtOne = true) ∧
        (res.tracer.sampler = some (Sampler.ConstSampler true)
          ↔ (effectiveProbability calls).gtZero = false)) ∧
    (Float64.zero.gtZero = false ∧
      defaultOptions.sampleProbability = Float64.zero ∧
      (∀ (m : Nat) (e : Int), (Float64.finite true m e).gtZero = false) ∧
      (∀ (m : Nat) (e : Int), 0 < m → (Float64.finite false m e).gtZero = true) ∧
      (Float64.inf true).gtZero = false ∧
      (Float64.inf false).gtZero = true ∧
      Float64.nan.gtZero = false) ∧
    (∀ (NewUDPTransport : String → Nat → Except String Transport) (p : Process)
        (serviceName tracingAgentHostPort : String) (opt opt2 : List TracingOption),
      (InitTracing NewUDPTransport
          (InitTracing NewUDPTransport p serviceName tracingAgentHostPort opt).1
          serviceName tracingAgentHostPort opt2).2 = Outcome.panic) ∧
    (∀ (NewUDPTransport : String → Nat → Except String Transport) (p : Process)
        (serviceName tracingAgentHostPort : String) (opt : List TracingOption) (b : Bool),
      InitTracing NewUDPTransport p serviceName tracingAgentHostPort
          (opt ++ [WithEnableInfoLog b])
        = InitTracing NewUDPTransport p serviceName tracingAgentHostPort opt) ∧
    (∀ (l : LogrusAdapter) (msg : String) (args : List String),
      (l.Errorf msg args).level = Level.Error ∧ (l.Infof msg args).level = Level.Info) := by
  refine ⟨rfl, rfl, rfl, rfl, applyOptions_sampleProbability,
    fun o p b => ⟨rfl, rfl, rfl, rfl⟩, ?_,
    ⟨rfl, rfl, fun m e => rfl, ?_, rfl, rfl, rfl⟩, ?_, ?_, fun l msg args => ⟨rfl, rfl⟩⟩
  · intro NewUDPTransport serviceName tracingAgentHostPort calls transport hT
    refine ⟨_, InitTracing_fresh_ok NewUDPTransport serviceName tracingAgentHostPort _
      transport hT, rfl, ?_, ?_, ?_, ?_⟩
    · simp only [initResultFor, applyOptions_sampleProbability]
    · rw [initResultFor_sampler, applyOptions_sampleProbability]
      cases h1 : (effectiveProbability calls).gtOne <;>
        cases h0 : (effectiveProbability calls).gtZero <;> simp
    · rw [initResultFor_sampler, applyOptions_sampleProbability]
      cases h1 : (effectiveProbability calls).gtOne <;>
        cases h0 : (effectiveProbability calls).gtZero <;> simp
    · rw [initResultFor_sampler, applyOptions_sampleProbability]
      cases h1 : (effectiveProbability calls).gtOne
      · cases h0 : (effectiveProbability calls).gtZero <;> simp
      · have h0 := Float64.gtZero_of_gtOne _ h1
        simp [h0]
  · intro m e hm
    simp [Float64.gtZero, hm]
  · intro NewUDPTransport p serviceName tracingAgentHostPort opt opt2
    have h1 : (InitTracing NewUDPTransport p serviceName tracingAgentHostPort opt).1
        = { metricsRegistered := true } := by
      unfold InitTracing NewMetrics
      cases hp : p.metricsRegistered
      · simp only [Bool.false_eq_true, if_false]
        cases NewUDPTransport tracingAgentHostPort 0 with
        | error err => rfl
        | ok transport =>
          simp only
          split <;> rfl
      · have hpe : p = { metricsRegistered := true } := by
          cases p
          simp_all
        simp [hpe]
    rw [h1]
    simp [InitTracing, NewMetrics]
  · intro NewUDPTransport p serviceName tracingAgentHostPort opt b
    simp only [InitTracing, applyOptions_append_infoLog]

/-! ## Order of the tags -/

theorem StartSpanFromContext_Tags (tr : Tracer) (ctx : Context) (operationName : String) :
    (StartSpanFromContext tr ctx operationName).1.Tags = TagMap.empty := by
  unfold StartSpanFromContext SpanFromContext
  cases h : ctx.span with
  | none => rfl
  | some parentSpan =>
    simp only [StartSpan, List.foldl_cons, List.foldl_nil, SpanReference.Apply, ChildOf]
    rfl

theorem ConsumerSpan_Tags (tr : Tracer) (numGoroutine : Nat) (ctx : Context)
    (opName cmp : String) (hdr : List (String × String)) (tags : List Tag) :
    (ConsumerSpan tr numGoroutine ctx opName cmp hdr tags).span.Tags =
      foldTags
        (StartSpan tr opName
          [({ ctx := (tr.Extract BuiltinFormat.HTTPHeaders (Carrier.TextMapCarrier hdr)).1 }
            : consumerOption).Apply]).Tags
        ([{ Key := "component", Value := TagValue.str cmp },
          { Key := "goroutines", Value := TagValue.int (Int.ofNat numGoroutine) }] ++ tags) := by
  simp only [ConsumerSpan, setTags_Tags, foldTags_append]
  rfl

theorem ChildSpan_Tags (tr : Tracer) (numGoroutine : Nat) (ctx : Context)
    (opName cmp : String) (tags : List Tag) :
    (ChildSpan tr numGoroutine ctx opName cmp tags).1.Tags =
      foldTags TagMap.empty
        ([{ Key := "component", Value := TagValue.str cmp }] ++ tags ++
          [{ Key := "goroutines", Value := TagValue.int (Int.ofNat numGoroutine) }]) := by
  simp only [ChildSpan, foldTags_append, Span.SetTag, setTags_Tags, ext.StringTagName.Set,
    StartSpanFromContext_Tags]
  rfl

theorem SQLSpan_Tags (tr : Tracer) (numGoroutine : Nat) (ctx : Context)
    (opName cmp sqlType inst user stmt : String) (tags : List Tag) :
    (SQLSpan tr numGoroutine ctx opName cmp sqlType inst user stmt tags).1.Tags =
      foldTags TagMap.empty
        ([{ Key := "component", Value := TagValue.str cmp },
          { Key := "db.type", Value := TagValue.str sqlType },
          { Key := "db.instance", Value := TagValue.str inst },
          { Key := "db.user", Value := TagValue.str user },
          { Key := "db.statement", Value := TagValue.str stmt }] ++ tags ++
          [{ Key := "goroutines", Value := TagValue.int (Int.ofNat numGoroutine) }]) := by
  simp only [SQLSpan, foldTags_append, Span.SetTag, setTags_Tags, ext.StringTagName.Set,
    StartSpanFromContext_Tags]
  rfl

/-- C9: with the tags of a span as a last-write-wins map, the final tags are the
left-to-right fold, over the tags the span was started with, of:
`ConsumerSpan`: `[component, goroutines] ++ callerTags`; `ChildSpan`:
`[component] ++ callerTags ++ [goroutines]`; `SQLSpan`: `[component, db.type,
db.instance, db.user, db.statement] ++ callerTags ++ [goroutines]`. Hence in
`SQLSpan` the value under a key other than `goroutines` that a caller tag
carries is that of the last caller tag with the key: a caller tag overrides a
database tag with the same key, and of duplicate caller keys the later wins. -/
theorem span_tags_fold (tr : Tracer) (numGoroutine : Nat) (ctx : Context)
    (opName cmp sqlType inst user stmt : String) (hdr : List (String × String))
    (tags : List Tag) :
    (ConsumerSpan tr numGoroutine ctx opName cmp hdr tags).span.Tags =
      foldTags (TagMap.empty.set "span.kind" (TagValue.spanKind "consumer"))
        ([{ Key := "component", Value := TagValue.str cmp },
          { Key := "goroutines", Value := TagValue.int (Int.ofNat numGoroutine) }] ++ tags) ∧
    (ChildSpan tr numGoroutine ctx opName cmp tags).1.Tags =
      foldTags TagMap.empty
        ([{ Key := "component", Value := TagValue.str cmp }] ++ tags ++
          [{ Key := "goroutines", Value := TagValue.int (Int.ofNat numGoroutine) }]) ∧
    (SQLSpan tr numGoroutine ctx opName cmp sqlType inst user stmt tags).1.Tags =
      foldTags TagMap.empty
        ([{ Key := "component", Value := TagValue.str cmp },
          { Key := "db.type", Value := TagValue.str sqlType },
          { Key := "db.instance", Value := TagValue.str inst },
          { Key := "db.user", Value := TagValue.str user },
          { Key := "db.statement", Value := TagValue.str stmt }] ++ tags ++
          [{ Key := "goroutines", Value := TagValue.int (Int.ofNat numGoroutine) }]) ∧
    (∀ (key : String) (t : Tag), key ≠ "goroutines" →
      (tags.filter (fun x => x.Key = key)).getLast? = some t →
      (SQLSpan tr numGoroutine ctx opName cmp sqlType inst user stmt tags).1.Tags key
        = some t.Value) := by
  refine ⟨?_, ChildSpan_Tags tr numGoroutine ctx opName cmp tags,
    SQLSpan_Tags tr numGoroutine ctx opName cmp sqlType inst user stmt tags, ?_⟩
  · rw [ConsumerSpan_Tags]
    cases (tr.Extract BuiltinFormat.HTTPHeaders (Carrier.TextMapCarrier hdr)).1 <;> rfl
  · intro key t hkey hlast
    rw [SQLSpan_Tags, foldTags_append, foldTags_append]
    have h1 : foldTags
        (foldTags
          (foldTags TagMap.empty
            [{ Key := "component", Value := TagValue.str cmp },
              { Key := "db.type", Value := TagValue.str sqlType },
              { Key := "db.instance", Value := TagValue.str inst },
              { Key := "db.user", Value := TagValue.str user },
              { Key := "db.statement", Value := TagValue.str stmt }]) tags)
        [{ Key := "goroutines", Value := TagValue.int (Int.ofNat numGoroutine) }] key
        = foldTags
          (foldTags TagMap.empty
            [{ Key := "component", Value := TagValue.str cmp },
              { Key := "db.type", Value := TagValue.str sqlType },
              { Key := "db.instance", Value := TagValue.str inst },
              { Key := "db.user", Value := TagValue.str user },
              { Key := "db.statement", Value := TagValue.str stmt }]) tags key := by
      simp only [foldTags, List.foldl_cons, List.foldl_nil]
      exact TagMap.set_other _ _ _ _ hkey
    rw [h1, foldTags_lookup, hlast]

/-- Witness for C9: `SQLSpan` with user `app` and the caller tags
`db.user = a`, `db.user = b`: the last caller tag wins over the database tag. -/
theorem span_tags_fold_witness :
    (SQLSpan notFoundTracer 4 emptyContext "query" "sql" "postgres" "orders" "app" "SELECT 1"
        [{ Key := "db.user", Value := TagValue.str "a" },
          { Key := "db.user", Value := TagValue.str "b" }]).1.Tags "db.user"
      = some (TagValue.str "b") :=
  (span_tags_fold notFoundTracer 4 emptyContext "query" "sql" "postgres" "orders" "app"
    "SELECT 1" []
    [{ Key := "db.user", Value := TagValue.str "a" },
      { Key := "db.user", Value := TagValue.str "b" }]).2.2.2
    "db.user" { Key := "db.user", Value := TagValue.str "b" } (by decide) (by decide)

end Tracing
